import Mathlib

/-!
Shallow embedding of the vuepress user-account authentication service
(Express routes in src/routes/auth.js, auth middleware, code generator)
as pure Lean functions over an explicit state, with fault-injection flags
for the fallible external operations (the ephemeral redis store, the
durable-store transaction commit, the mail transport).
-/

namespace Auth

/-- JSON values as they arrive in a parsed request body field.  Only the
scalar shapes matter for the handlers: a field may be a string, a number,
a boolean, or null/absent. -/
inductive JVal where
  | str (s : String)
  | num (n : Int)
  | jbool (b : Bool)
  | jnull
deriving Repr, DecidableEq

/-- JavaScript truthiness of a request body field ( `if (!email)` ). -/
def jtruthy : JVal → Bool
  | .str s => s != ""
  | .num n => n != 0
  | .jbool b => b
  | .jnull => false

/-- A durable user row (models/user.js): id, unique email, password hash,
verified flag. -/
structure User where
  id : Nat
  email : String
  password_hash : String
  verified : Bool
deriving Repr, DecidableEq

/-- One entry of the ephemeral key-value store (redis):
`setEx key ttl value`. -/
structure KVEntry where
  key : String
  value : String
  ttl : Int
deriving Repr, DecidableEq

/-- Observable system state: durable user rows, the ephemeral store, and a
log of attempted outbound mails (recipient, code) — an attempt is recorded
whether or not the transport succeeds. -/
structure St where
  users : List User
  kv : List KVEntry
  mailAttempts : List (String × String)
deriving Repr, DecidableEq

/-- Configuration values consumed by the handlers (config.js). -/
structure Config where
  verifTtl : Int
  resetTtl : Int
  tokenTtlSeconds : Int
deriving Repr, DecidableEq

/-- redis GET: first entry with the key, if any. -/
def kvGet (st : St) (k : String) : Option String :=
  (st.kv.find? (fun en => en.key == k)).map (fun en => en.value)

/-- redis SETEX: overwrite any entry at the key with the new value and ttl. -/
def kvSetEx (st : St) (k : String) (ttl : Int) (v : String) : St :=
  { st with kv := ⟨k, v, ttl⟩ :: st.kv.filter (fun en => en.key != k) }

/-- redis DEL. -/
def kvDel (st : St) (k : String) : St :=
  { st with kv := st.kv.filter (fun en => en.key != k) }

/-- Sequelize `User.findOne({where:{email}})`. -/
def findUserByEmail (st : St) (e : String) : Option User :=
  st.users.find? (fun u => u.email == e)

/-- Persisting a modified user row (`user.save()`): replace the row with
the same primary key. -/
def updateUsers (l : List User) (u : User) : List User :=
  l.map (fun v => if v.id = u.id then u else v)

/-- Model of the adaptive password hash (an opaque cryptographic building
block per the spec §1): injective tagging of the plaintext with the cost. -/
def bcryptHash (cost : Nat) (p : String) : String :=
  "$2b$" ++ toString cost ++ "$" ++ p

/-- Model of `bcrypt.compare`: the plaintext matches the stored hash iff
hashing it (at the cost this codebase always uses) reproduces the hash. -/
def bcryptCompare (p h : String) : Bool :=
  bcryptHash 12 p == h

/-- Response bodies that the handlers produce.  JSON serialization is
injective on these shapes, so equality of `Body` values models
byte-identical response bodies. -/
inductive Body where
  | errMsg (e : String)
  | okB
  | okMsg (m : String)
  | tokenBody (sub : Nat) (email : String) (jti : String)
deriving Repr, DecidableEq

/-- An HTTP response: status code and JSON body. -/
structure Resp where
  status : Nat
  body : Body
deriving Repr, DecidableEq

/-- Helper `errorResponse(res, statusCode, message)`. -/
def errR (s : Nat) (m : String) : Resp := ⟨s, .errMsg m⟩

/-- Success body `res.json({ ok: true })`. -/
def okResp : Resp := ⟨200, .okB⟩

/-- JS `String.prototype.trim`: strip leading and trailing whitespace. -/
def jsTrim (s : String) : String :=
  ⟨((s.toList.dropWhile Char.isWhitespace).reverse.dropWhile
      Char.isWhitespace).reverse⟩

/-- JS `String.prototype.toLowerCase` (ASCII case mapping suffices here). -/
def jsToLower (s : String) : String := ⟨s.toList.map Char.toLower⟩

/-- Character class `[^\s@]` of the email regex. -/
def okLocalChar (c : Char) : Bool := !c.isWhitespace && c != '@'

/-- The test `/^[^\s@]+@[^\s@]+\.[^\s@]+$/.test(email)`: split at the
first `@`; the local part is nonempty with no whitespace/`@`; the domain
part is nonempty with no whitespace/`@` and has a `.` that is neither its
first nor its last character. -/
def emailRegexTest (s : String) : Bool :=
  let cs := s.toList
  match cs.findIdx? (fun c => c == '@') with
  | none => false
  | some i =>
    let lp := cs.take i
    let dp := cs.drop (i + 1)
    !lp.isEmpty && lp.all okLocalChar && !dp.isEmpty && dp.all okLocalChar
      && (dp.drop 1).dropLast.contains '.'

/-- Expression `email.split('@')[0]`: the characters before the first `@` (the whole
string when there is no `@`). -/
def localPart (email : String) : List Char :=
  email.toList.takeWhile (fun c => c != '@')

/-- Validator `isValidEmail` from the routes: basic shape, total length ≤ 254,
local part ≤ 64. -/
def isValidEmail (email : String) : Bool :=
  if email.toList.isEmpty then false
  else if !emailRegexTest email then false
  else if email.length > 254 then false
  else if (localPart email).length > 64 then false
  else true

/-- Validator `isValidPassword(password)` over a JSON field: JS
`password && password.length >= 6`; a non-string truthy value has
`.length === undefined`, which fails the comparison. -/
def jvalidPassword : JVal → Bool
  | .str p => decide (p.length ≥ 6)
  | _ => false

/-- Normalization `email.trim().toLowerCase()`. -/
def normEmail (e : String) : String := jsToLower (jsTrim e)

/-- Check `/^\d{6}$/.test(s)`: exactly six ASCII digits. -/
def isSixDigits (s : String) : Bool :=
  s.length == 6 && s.toList.all Char.isDigit

/-- Extract the string of a `JVal` known to be a string (unreachable
default otherwise; every use is guarded by a string-only check). -/
def getStr : JVal → String
  | .str s => s
  | _ => ""

/-- Decimal digit string of a natural number. -/
def natDec (n : Nat) : String :=
  if n = 0 then "0" else ⟨((Nat.digits 10 n).map Nat.digitChar).reverse⟩

/-- JS `Number.prototype.toString()` for integer values. -/
def intDec : Int → String
  | .ofNat n => natDec n
  | .negSucc n => "-" ++ natDec (n + 1)

/-- The numeric value computed by `genCode`:
`Math.floor(min + r * (max - min + 1))` with `min = 10^(len-1)`,
`max = 10^len - 1`, and `r` the value drawn from `Math.random()`
(a real in `[0,1)`, modelled as a rational). -/
def genCodeN (len : Nat) (r : ℚ) : ℤ :=
  let lo : ℚ := (10 : ℚ) ^ (len - 1)
  let hi : ℚ := (10 : ℚ) ^ len - 1
  Int.floor (lo + r * (hi - lo + 1))

/-- Generator `genCode(len)`: the generated code as a string. -/
def genCode (len : Nat) (r : ℚ) : String := intDec (genCodeN len r)

def verifKey (ne : String) : String := "verif_" ++ ne

def resetKey (ne : String) : String := "reset_" ++ ne

def blackKey (j : String) : String := "black_" ++ j

/-- Fault-injection flags for `POST /register/request`: failure of the
redis `setEx`, of the transaction commit, and of the mail transport. -/
structure RegisterFaults where
  setFails : Bool
  commitFails : Bool
  mailFails : Bool
deriving Repr, DecidableEq

/-- Route `POST /register/request`.  `r` is the `Math.random()` draw and `newId`
the primary key the durable store assigns to the created row.  The mail
transport failing (`f.mailFails`) is logged only: it changes neither the
state transition nor the response, so it does not appear on the right-hand
sides. -/
def registerRequest (cfg : Config) (r : ℚ) (newId : Nat) (f : RegisterFaults)
    (st : St) (email password : JVal) : St × Resp :=
  if !(jtruthy email && jtruthy password) then
    (st, errR 400 "email and password required")
  else
    match email with
    | .str e =>
      let ne := normEmail e
      if !isValidEmail ne then (st, errR 400 "invalid email format")
      else if !jvalidPassword password then
        (st, errR 400 "password must be at least 6 characters")
      else
        match findUserByEmail st ne with
        | some _ => (st, errR 400 "email already registered")
        | none =>
          let user : User := ⟨newId, ne, bcryptHash 12 (getStr password), false⟩
          let code := genCode 6 r
          if f.setFails then (st, errR 500 "Failed to store verification code")
          else
            let stKv := kvSetEx st (verifKey ne) cfg.verifTtl code
            if f.commitFails then (stKv, errR 500 "internal server error")
            else
              (⟨st.users ++ [user], stKv.kv, st.mailAttempts ++ [(ne, code)]⟩,
                ⟨200, .okMsg "verification code sent to email"⟩)
    | _ => (st, errR 500 "internal server error")

/-- Fault-injection flags for `POST /register/verify`: failure of the
redis `get`, of the redis `del`, of the `user.save`, and of the
transaction commit. -/
structure VerifyFaults where
  getFails : Bool
  delFails : Bool
  saveFails : Bool
  commitFails : Bool
deriving Repr, DecidableEq

/-- Route `POST /register/verify`.  A non-string truthy `email` or `code` field
throws on `.trim()` and is converted to a 500 by the outer catch. -/
def registerVerify (f : VerifyFaults) (st : St) (email code : JVal) :
    St × Resp :=
  if !(jtruthy email && jtruthy code) then
    (st, errR 400 "email and code required")
  else
    match email with
    | .str e =>
      let ne := normEmail e
      if !isValidEmail ne then (st, errR 400 "invalid email format")
      else
        match code with
        | .str c =>
          if !isSixDigits (jsTrim c) then (st, errR 400 "invalid code format")
          else if f.getFails then (st, errR 500 "Failed to verify code")
          else
            match kvGet st (verifKey ne) with
            | none => (st, errR 400 "code expired or not found")
            | some saved =>
              if saved == "" then (st, errR 400 "code expired or not found")
              else if saved != jsTrim c then (st, errR 400 "invalid code")
              else
                match findUserByEmail st ne with
                | none => (st, errR 404 "user not found")
                | some user =>
                  if user.verified then
                    (if f.delFails then st else kvDel st (verifKey ne), okResp)
                  else if f.saveFails then (st, errR 500 "internal server error")
                  else
                    let kv1 := if f.delFails then st.kv
                      else (kvDel st (verifKey ne)).kv
                    if f.commitFails then
                      (⟨st.users, kv1, st.mailAttempts⟩,
                        errR 500 "internal server error")
                    else
                      (⟨updateUsers st.users { user with verified := true },
                         kv1, st.mailAttempts⟩, okResp)
        | _ => (st, errR 500 "internal server error")
    | _ => (st, errR 500 "internal server error")

/-- Route `POST /login`.  `jti` is the fresh `uuidv4()` draw.  Login mutates no
state.  `bcrypt.compare` with a non-string password rejects, which the
outer catch converts to a 500. -/
def login (jti : String) (st : St) (email password : JVal) : St × Resp :=
  if !(jtruthy email && jtruthy password) then
    (st, errR 400 "email and password required")
  else
    match email with
    | .str e =>
      let ne := normEmail e
      if !isValidEmail ne then (st, errR 400 "invalid email format")
      else
        match findUserByEmail st ne with
        | none => (st, errR 400 "invalid credentials")
        | some user =>
          if !user.verified then (st, errR 403 "email not verified")
          else
            match password with
            | .str p =>
              if !bcryptCompare p user.password_hash then
                (st, errR 400 "invalid credentials")
              else (st, ⟨200, .tokenBody user.id user.email jti⟩)
            | _ => (st, errR 500 "internal server error")
    | _ => (st, errR 500 "internal server error")

/-- Decoded claims of a bearer token.  `validSig` models whether
`jwt.verify` accepts the signature; `jti` and `exp` are the optional
claims. -/
structure Tok where
  sub : Nat
  email : String
  jti : Option String
  exp : Option Int
  validSig : Bool
deriving Repr, DecidableEq

/-- The authorization header as the handlers see it: absent or not
`Bearer `-prefixed, `Bearer ` with an empty token, or a token decoding to
claims `t`. -/
inductive AuthHeader where
  | missing
  | emptyTok
  | tok (t : Tok)
deriving Repr, DecidableEq

/-- JS truthiness of `payload.jti` (absent or empty string is falsy). -/
def jtiTruthy : Option String → Bool
  | some s => s != ""
  | none => false

/-- Route `POST /logout`: decode ignoring expiry, then blacklist the jti with
the remaining TTL (falling back to the configured default).  A failing
`setEx` is logged only; the response is still `{ok:true}`. -/
def logout (cfg : Config) (now : Int) (setFails : Bool) (st : St)
    (a : AuthHeader) : St × Resp :=
  match a with
  | .missing => (st, errR 401 "Unauthorized")
  | .emptyTok => (st, errR 401 "Token required")
  | .tok t =>
    if !t.validSig then (st, errR 401 "invalid or expired token")
    else if !jtiTruthy t.jti then (st, errR 400 "invalid token")
    else
      let ttl : Int :=
        match t.exp with
        | some e =>
          if e != 0 then
            (if e - now > 0 then e - now else cfg.tokenTtlSeconds)
          else cfg.tokenTtlSeconds
        | none => cfg.tokenTtlSeconds
      (if setFails then st
        else kvSetEx st (blackKey (t.jti.getD "")) ttl "1", okResp)

/-- Check of `jwt.verify` expiry: `TokenExpiredError` when the clock has
reached the `exp` claim. -/
def tokExpired (now : Int) (t : Tok) : Bool :=
  match t.exp with
  | some e => decide (now ≥ e)
  | none => false

/-- The auth middleware (Auth Guard): `.error r` models sending rejection
response `r`; `.ok t` models attaching the decoded claims as `req.user`
and calling `next()`.  A failing blacklist lookup falls open. -/
def authGuard (now : Int) (getFails : Bool) (st : St) (a : AuthHeader) :
    Except Resp Tok :=
  match a with
  | .missing => .error (errR 401 "Unauthorized")
  | .emptyTok => .error (errR 401 "Token required")
  | .tok t =>
    if !t.validSig then .error (errR 401 "Invalid token")
    else if tokExpired now t then .error (errR 401 "Token expired")
    else if !jtiTruthy t.jti then .error (errR 401 "Malformed token")
    else if getFails then .ok t
    else
      match kvGet st (blackKey (t.jti.getD "")) with
      | some v => if v != "" then .error (errR 401 "Token revoked") else .ok t
      | none => .ok t

/-- Fault-injection flags for `POST /password/forgot`: failure of the
redis `setEx` and of the mail transport (both logged only). -/
structure ForgotFaults where
  setFails : Bool
  sendFails : Bool
deriving Repr, DecidableEq

/-- Route `POST /password/forgot`.  When a user exists, store a reset code
(best-effort) and attempt the mail send; the response is the same success
message in every non-error case. -/
def forgotPassword (cfg : Config) (r : ℚ) (f : ForgotFaults) (st : St)
    (email : JVal) : St × Resp :=
  if !jtruthy email then (st, errR 400 "email required")
  else
    match email with
    | .str e =>
      let ne := normEmail e
      if !isValidEmail ne then (st, errR 400 "invalid email format")
      else
        match findUserByEmail st ne with
        | some _ =>
          let code := genCode 6 r
          let st1 := if f.setFails then st
            else kvSetEx st (resetKey ne) cfg.resetTtl code
          (⟨st1.users, st1.kv, st1.mailAttempts ++ [(ne, code)]⟩,
            ⟨200, .okMsg "reset code sent if email exists"⟩)
        | none => (st, ⟨200, .okMsg "reset code sent if email exists"⟩)
    | _ => (st, errR 500 "internal server error")

/-- Fault-injection flags for `POST /password/reset`. -/
structure ResetFaults where
  getFails : Bool
  delFails : Bool
  saveFails : Bool
  commitFails : Bool
deriving Repr, DecidableEq

/-- Route `POST /password/reset`.  A non-string truthy `code` throws on
`.trim()` and is converted to a 500 by the outer catch. -/
def resetPassword (f : ResetFaults) (st : St)
    (email code newPassword : JVal) : St × Resp :=
  if !(jtruthy email && jtruthy code && jtruthy newPassword) then
    (st, errR 400 "email, code and newPassword required")
  else
    match email with
    | .str e =>
      let ne := normEmail e
      if !isValidEmail ne then (st, errR 400 "invalid email format")
      else if !jvalidPassword newPassword then
        (st, errR 400 "password must be at least 6 characters")
      else
        match code with
        | .str c =>
          let tc := jsTrim c
          if !isSixDigits tc then (st, errR 400 "invalid code format")
          else if f.getFails then (st, errR 500 "Failed to verify reset code")
          else
            match kvGet st (resetKey ne) with
            | none => (st, errR 400 "code expired or not found")
            | some saved =>
              if saved == "" then (st, errR 400 "code expired or not found")
              else if saved != tc then (st, errR 400 "invalid code")
              else
                match findUserByEmail st ne with
                | none => (st, errR 404 "user not found")
                | some user =>
                  if f.saveFails then (st, errR 500 "internal server error")
                  else
                    let nh := bcryptHash 12 (getStr newPassword)
                    let kv1 := if f.delFails then st.kv
                      else (kvDel st (resetKey ne)).kv
                    if f.commitFails then
                      (⟨st.users, kv1, st.mailAttempts⟩,
                        errR 500 "internal server error")
                    else
                      (⟨updateUsers st.users { user with password_hash := nh },
                         kv1, st.mailAttempts⟩, okResp)
        | _ => (st, errR 500 "internal server error")
    | _ => (st, errR 500 "internal server error")

/-! Helper lemmas. -/

theorem valid_email_ne_empty {e : String}
    (hv : isValidEmail (normEmail e) = true) : e ≠ "" := by
  intro h
  subst h
  exact absurd hv (by decide)

theorem jtruthy_str (s : String) : jtruthy (.str s) = (s != "") := rfl

theorem valid_password_ne_empty {p : String}
    (hp : jvalidPassword (.str p) = true) : p ≠ "" := by
  intro h
  subst h
  exact absurd hp (by decide)

theorem kvGet_setEx_self (st : St) (k : String) (ttl : Int) (v : String) :
    kvGet (kvSetEx st k ttl v) k = some v := by
  simp [kvGet, kvSetEx, List.find?]

theorem isSixDigits_ne_empty {s : String} (h : isSixDigits s = true) :
    s ≠ "" := by
  intro hs
  subst hs
  exact absurd h (by decide)

theorem find?_filter_ne (l : List KVEntry) (k : String) :
    (l.filter (fun en => en.key != k)).find? (fun en => en.key == k) =
      none := by
  induction l with
  | nil => rfl
  | cons x xs ih =>
    by_cases hx : x.key = k
    · simp [List.filter_cons, hx, ih]
    · simp [List.filter_cons, List.find?, hx, ih]

theorem kvGet_del_self (st : St) (k : String) :
    kvGet (kvDel st k) k = none := by
  simp [kvGet, kvDel, find?_filter_ne]

/-- After persisting the verified flag for the user row found by email,
looking the email up again yields a verified row. -/
theorem find_update_verified (l : List User) (u : User) (ne : String)
    (h : l.find? (fun v => v.email == ne) = some u) :
    ∃ w, (updateUsers l { u with verified := true }).find?
        (fun v => v.email == ne) = some w ∧ w.verified = true := by
  have hue : u.email = ne := by
    have hp := List.find?_some h
    exact eq_of_beq hp
  induction l with
  | nil => simp [List.find?] at h
  | cons x xs ih =>
    by_cases hid : x.id = u.id
    · refine ⟨{ u with verified := true }, ?_, rfl⟩
      simp [updateUsers, List.find?, hid, hue]
    · by_cases hx : x.email = ne
      · exfalso
        rw [List.find?_cons_of_pos _ (by simp [hx])] at h
        have : x = u := by injection h
        exact hid (by rw [this])
      · rw [List.find?_cons_of_neg _ (by simp [hx])] at h
        obtain ⟨w, hw, hwv⟩ := ih h
        refine ⟨w, ?_, hwv⟩
        simp only [updateUsers, List.map_cons] at hw ⊢
        rw [if_neg (by simpa using hid),
          List.find?_cons_of_neg _ (by simp [hx])]
        exact hw

/-- Sample states and records used by the concrete witnesses. -/
def uVerified : User := ⟨1, "a@b.com", bcryptHash 12 "secret1", true⟩

def uUnverified : User := ⟨2, "c@d.com", bcryptHash 12 "secret1", false⟩

def cfgW : Config := ⟨600, 900, 86400⟩

/-- Initial state for the register-verify scenarios: one unverified user
with an outstanding correct code. -/
def stA : St := ⟨[uUnverified], [⟨verifKey "c@d.com", "123456", 600⟩], []⟩

end Auth

namespace Auth

/-- Claim C3: for two login requests with valid-format emails and a
password present, one naming a non-existent account and one naming an
existing verified account with a wrong password, the failure responses
are identical: both status 400 with the error body "invalid credentials". -/
theorem login_uniform_failure
    (jti1 jti2 : String) (st1 st2 : St) (e1 e2 p1 p2 : String) (u : User)
    (hv1 : isValidEmail (normEmail e1) = true)
    (hv2 : isValidEmail (normEmail e2) = true)
    (hp1 : p1 ≠ "") (hp2 : p2 ≠ "")
    (h1 : findUserByEmail st1 (normEmail e1) = none)
    (h2 : findUserByEmail st2 (normEmail e2) = some u)
    (hu : u.verified = true)
    (hw : bcryptCompare p2 u.password_hash = false) :
    (login jti1 st1 (.str e1) (.str p1)).2 = errR 400 "invalid credentials" ∧
      (login jti2 st2 (.str e2) (.str p2)).2 =
        (login jti1 st1 (.str e1) (.str p1)).2 := by
  have he1 := valid_email_ne_empty hv1
  have he2 := valid_email_ne_empty hv2
  constructor
  · simp [login, jtruthy, he1, hp1, hv1, h1]
  · simp [login, jtruthy, he1, he2, hp1, hp2, hv1, hv2, h1, h2, hu, hw]

/-- Witness for C3 at concrete inputs. -/
theorem login_uniform_failure_w :
    isValidEmail (normEmail "x@y.com") = true ∧
    isValidEmail (normEmail "a@b.com") = true ∧
    findUserByEmail ⟨[], [], []⟩ (normEmail "x@y.com") = none ∧
    findUserByEmail ⟨[uVerified], [], []⟩ (normEmail "a@b.com") =
      some uVerified ∧
    uVerified.verified = true ∧
    bcryptCompare "wrongpw" uVerified.password_hash = false ∧
    ((login "J" ⟨[], [], []⟩ (.str "x@y.com") (.str "pw")).2 =
        errR 400 "invalid credentials" ∧
      (login "K" ⟨[uVerified], [], []⟩ (.str "a@b.com")
          (.str "wrongpw")).2 =
        (login "J" ⟨[], [], []⟩ (.str "x@y.com") (.str "pw")).2) :=
  ⟨by decide, by decide, by decide, by decide, by decide, by decide,
    login_uniform_failure "J" "K" ⟨[], [], []⟩ ⟨[uVerified], [], []⟩
      "x@y.com" "a@b.com" "pw" "wrongpw" uVerified
      (by decide) (by decide) (by decide) (by decide)
      (by decide) (by decide) (by decide) (by decide)⟩

/-- Claim C4: for a user record with `verified = false`, login returns
403 "email not verified" for every (truthy) password field — string or
not, matching the stored hash or not — and never a token. -/
theorem login_unverified_rejected
    (jti : String) (st : St) (e : String) (password : JVal) (u : User)
    (hv : isValidEmail (normEmail e) = true)
    (hp : jtruthy password = true)
    (hu : findUserByEmail st (normEmail e) = some u)
    (hnv : u.verified = false) :
    login jti st (.str e) password = (st, errR 403 "email not verified") := by
  have he := valid_email_ne_empty hv
  simp [login, jtruthy_str, bne_iff_ne, he, hp, hv, hu, hnv]

/-- Once the user found for the email is verified, no register-verify
call mutates the user rows (every reachable branch leaves `users`
untouched). -/
theorem registerVerify_users_eq_of_verified
    (f : VerifyFaults) (st : St) (e : String) (code : JVal) (w : User)
    (hw : findUserByEmail st (normEmail e) = some w)
    (hv : w.verified = true) :
    (registerVerify f st (.str e) code).1.users = st.users := by
  by_cases he : e = ""
  · simp [registerVerify, jtruthy_str, he]
  by_cases hve : isValidEmail (normEmail e) = true
  all_goals cases code with
  | str c =>
    by_cases hc0 : c = ""
    · simp [registerVerify, jtruthy_str, bne_iff_ne, he, hc0]
    by_cases hc : isSixDigits (jsTrim c) = true
    all_goals cases hg : f.getFails
    all_goals try
      simp [registerVerify, jtruthy_str, bne_iff_ne, he, hc0, hve, hc, hg]
    all_goals cases hkv : kvGet st (verifKey (normEmail e)) with
    | none =>
      simp [registerVerify, jtruthy_str, bne_iff_ne, he, hc0, hve, hc, hg,
        hkv]
    | some saved =>
      by_cases hs0 : saved = ""
      · simp [registerVerify, jtruthy_str, bne_iff_ne, he, hc0, hve, hc, hg,
          hkv, hs0]
      by_cases hsc : saved = jsTrim c
      · have htc : jsTrim c ≠ "" := hsc ▸ hs0
        simp [registerVerify, jtruthy_str, bne_iff_ne, he, hc0, hve, hc, hg,
          hkv, hs0, hsc, htc, hw, hv, kvDel]
        split <;> rfl
      · simp [registerVerify, jtruthy_str, bne_iff_ne, he, hc0, hve, hc, hg,
          hkv, hs0, hsc]
  | num n =>
    simp only [registerVerify, jtruthy_str, bne_iff_ne, he, jtruthy]
    split
    · rfl
    · split <;> rfl
  | jbool b =>
    cases b <;>
      simp [registerVerify, jtruthy_str, bne_iff_ne, he, hve, jtruthy]
  | jnull => simp [registerVerify, jtruthy_str, bne_iff_ne, he, jtruthy]

/-- Counterexample to claim C1 as stated: from the state after the first
successful register-verify (which returned ok and deleted the code), a
second call with the very code that was correct returns
400 "code expired or not found" — not ok — and a garbage code returns
400 "invalid code format". -/
theorem register_verify_not_idempotent_cex :
    (registerVerify ⟨false, false, false, false⟩
        ⟨[uUnverified], [⟨verifKey "c@d.com", "123456", 600⟩], []⟩
        (.str "c@d.com") (.str "123456")).2 = okResp ∧
    (registerVerify ⟨false, false, false, false⟩
        (registerVerify ⟨false, false, false, false⟩
          ⟨[uUnverified], [⟨verifKey "c@d.com", "123456", 600⟩], []⟩
          (.str "c@d.com") (.str "123456")).1
        (.str "c@d.com") (.str "123456")).2 =
      errR 400 "code expired or not found" ∧
    (registerVerify ⟨false, false, false, false⟩
        (registerVerify ⟨false, false, false, false⟩
          ⟨[uUnverified], [⟨verifKey "c@d.com", "123456", 600⟩], []⟩
          (.str "c@d.com") (.str "123456")).1
        (.str "c@d.com") (.str "garbage")).2 =
      errR 400 "invalid code format" := by
  decide

/-- Claim C1 (amended): register-verify with the correct code flips the
verified flag false→true on the first success, and after that no
register-verify call changes the user rows again (the flip happens
exactly once); a second call is ok only when a stored code still exists
and matches (e.g. when the first call's best-effort deletion failed); in
the normal case the deleted correct code yields 400 "code expired or not
found" and a garbage code yields 400 "invalid code format". -/
theorem register_verify_once_amended
    (st : St) (u : User) (e c g : String) (f2 : VerifyFaults) (code2 : JVal)
    (hv : isValidEmail (normEmail e) = true)
    (hc : isSixDigits (jsTrim c) = true)
    (hsaved : kvGet st (verifKey (normEmail e)) = some (jsTrim c))
    (hu : findUserByEmail st (normEmail e) = some u)
    (hnv : u.verified = false)
    (hg : isSixDigits (jsTrim g) = false) (hgne : g ≠ "") :
    (registerVerify ⟨false, false, false, false⟩ st (.str e) (.str c)).2 =
      okResp ∧
    (∃ w, findUserByEmail
        (registerVerify ⟨false, false, false, false⟩ st (.str e)
          (.str c)).1 (normEmail e) = some w ∧ w.verified = true) ∧
    (registerVerify f2
        (registerVerify ⟨false, false, false, false⟩ st (.str e)
          (.str c)).1 (.str e) code2).1.users =
      (registerVerify ⟨false, false, false, false⟩ st (.str e)
        (.str c)).1.users ∧
    (registerVerify ⟨false, false, false, false⟩
        (registerVerify ⟨false, false, false, false⟩ st (.str e)
          (.str c)).1 (.str e) (.str c)).2 =
      errR 400 "code expired or not found" ∧
    (registerVerify ⟨false, false, false, false⟩
        (registerVerify ⟨false, false, false, false⟩ st (.str e)
          (.str c)).1 (.str e) (.str g)).2 =
      errR 400 "invalid code format" ∧
    (registerVerify ⟨false, true, false, false⟩ st (.str e) (.str c)).2 =
      okResp ∧
    (registerVerify ⟨false, false, false, false⟩
        (registerVerify ⟨false, true, false, false⟩ st (.str e)
          (.str c)).1 (.str e) (.str c)).2 = okResp := by
  have he := valid_email_ne_empty hv
  have htc := isSixDigits_ne_empty hc
  have hcne : c ≠ "" := fun h => htc (by rw [h]; rfl)
  have hres1 : registerVerify ⟨false, false, false, false⟩ st (.str e)
      (.str c) =
      (⟨updateUsers st.users { u with verified := true },
        (kvDel st (verifKey (normEmail e))).kv, st.mailAttempts⟩, okResp) := by
    simp [registerVerify, jtruthy_str, bne_iff_ne, he, hcne, htc, hv, hc,
      hsaved, hu, hnv]
  have hres1d : registerVerify ⟨false, true, false, false⟩ st (.str e)
      (.str c) =
      (⟨updateUsers st.users { u with verified := true },
        st.kv, st.mailAttempts⟩, okResp) := by
    simp [registerVerify, jtruthy_str, bne_iff_ne, he, hcne, htc, hv, hc,
      hsaved, hu, hnv]
  have hfindw : ∃ w, findUserByEmail
      (⟨updateUsers st.users { u with verified := true },
        (kvDel st (verifKey (normEmail e))).kv, st.mailAttempts⟩ : St)
      (normEmail e) = some w ∧ w.verified = true := by
    have := find_update_verified st.users u (normEmail e)
      (by simpa [findUserByEmail] using hu)
    simpa [findUserByEmail] using this
  refine ⟨by rw [hres1], by rw [hres1]; exact hfindw, ?_, ?_, ?_,
    by rw [hres1d], ?_⟩
  · obtain ⟨w, hw, hwv⟩ := hfindw
    rw [hres1]
    exact registerVerify_users_eq_of_verified f2 _ e code2 w hw hwv
  · rw [hres1]
    have hnokv : kvGet
        (⟨updateUsers st.users { u with verified := true },
          (kvDel st (verifKey (normEmail e))).kv, st.mailAttempts⟩ : St)
        (verifKey (normEmail e)) = none :=
      kvGet_del_self st (verifKey (normEmail e))
    simp [registerVerify, jtruthy_str, bne_iff_ne, he, hcne, htc, hv, hc,
      hnokv]
  · rw [hres1]
    simp [registerVerify, jtruthy_str, bne_iff_ne, he, hgne, hv, hg]
  · rw [hres1d]
    obtain ⟨w, hw, hwv⟩ := hfindw
    have hw' : findUserByEmail
        (⟨updateUsers st.users { u with verified := true },
          st.kv, st.mailAttempts⟩ : St) (normEmail e) = some w := hw
    have hkv' : kvGet
        (⟨updateUsers st.users { u with verified := true },
          st.kv, st.mailAttempts⟩ : St) (verifKey (normEmail e)) =
        some (jsTrim c) := hsaved
    simp [registerVerify, jtruthy_str, bne_iff_ne, he, hcne, htc, hv, hc,
      hkv', hw', hwv]

/-- Witness for the amended C1 at concrete inputs. -/
theorem register_verify_once_amended_w :
    isValidEmail (normEmail "c@d.com") = true ∧
    isSixDigits (jsTrim "123456") = true ∧
    kvGet stA (verifKey (normEmail "c@d.com")) = some (jsTrim "123456") ∧
    findUserByEmail stA (normEmail "c@d.com") = some uUnverified ∧
    uUnverified.verified = false ∧
    isSixDigits (jsTrim "garbage") = false ∧
    ((registerVerify ⟨false, false, false, false⟩ stA (.str "c@d.com")
          (.str "123456")).2 = okResp ∧
      (∃ w, findUserByEmail
          (registerVerify ⟨false, false, false, false⟩ stA (.str "c@d.com")
            (.str "123456")).1 (normEmail "c@d.com") = some w ∧
          w.verified = true) ∧
      (registerVerify ⟨true, true, true, true⟩
          (registerVerify ⟨false, false, false, false⟩ stA (.str "c@d.com")
            (.str "123456")).1 (.str "c@d.com") (.str "123456")).1.users =
        (registerVerify ⟨false, false, false, false⟩ stA (.str "c@d.com")
          (.str "123456")).1.users ∧
      (registerVerify ⟨false, false, false, false⟩
          (registerVerify ⟨false, false, false, false⟩ stA (.str "c@d.com")
            (.str "123456")).1 (.str "c@d.com") (.str "123456")).2 =
        errR 400 "code expired or not found" ∧
      (registerVerify ⟨false, false, false, false⟩
          (registerVerify ⟨false, false, false, false⟩ stA (.str "c@d.com")
            (.str "123456")).1 (.str "c@d.com") (.str "garbage")).2 =
        errR 400 "invalid code format" ∧
      (registerVerify ⟨false, true, false, false⟩ stA (.str "c@d.com")
          (.str "123456")).2 = okResp ∧
      (registerVerify ⟨false, false, false, false⟩
          (registerVerify ⟨false, true, false, false⟩ stA (.str "c@d.com")
            (.str "123456")).1 (.str "c@d.com") (.str "123456")).2 =
        okResp) :=
  ⟨by decide, by decide, by decide, by decide, by decide, by decide,
    register_verify_once_amended stA uUnverified "c@d.com" "123456"
      "garbage" ⟨true, true, true, true⟩ (.str "123456")
      (by decide) (by decide) (by decide) (by decide) (by decide)
      (by decide) (by decide)⟩

/-- Claim C9: in register-verify's success path for an unverified user,
the code deletion precedes the commit; when the commit fails the response
is a 500, the user rows are unchanged (still unverified) while the stored
code is already gone, and no later register-verify call with that code
can return ok. -/
theorem verify_commit_failure_orphans_code
    (st : St) (e c : String) (u : User) (f2 : VerifyFaults)
    (hv : isValidEmail (normEmail e) = true)
    (hc : isSixDigits (jsTrim c) = true)
    (hsaved : kvGet st (verifKey (normEmail e)) = some (jsTrim c))
    (hu : findUserByEmail st (normEmail e) = some u)
    (hnv : u.verified = false) :
    (registerVerify ⟨false, false, false, true⟩ st (.str e) (.str c)).2 =
      errR 500 "internal server error" ∧
    (registerVerify ⟨false, false, false, true⟩ st (.str e) (.str c)).1.users
      = st.users ∧
    kvGet (registerVerify ⟨false, false, false, true⟩ st (.str e)
        (.str c)).1 (verifKey (normEmail e)) = none ∧
    (registerVerify f2
        (registerVerify ⟨false, false, false, true⟩ st (.str e) (.str c)).1
        (.str e) (.str c)).2 ≠ okResp := by
  have he := valid_email_ne_empty hv
  have hcne := isSixDigits_ne_empty hc
  have hcne' : c ≠ "" := fun h => hcne (by rw [h]; rfl)
  have hres : registerVerify ⟨false, false, false, true⟩ st (.str e)
      (.str c) =
      (⟨st.users, (kvDel st (verifKey (normEmail e))).kv, st.mailAttempts⟩,
        errR 500 "internal server error") := by
    simp [registerVerify, jtruthy_str, bne_iff_ne, he, hcne, hcne', hv, hc,
      hsaved, hu, hnv]
  refine ⟨by rw [hres], by rw [hres], ?_, ?_⟩
  · rw [hres]
    exact kvGet_del_self st (verifKey (normEmail e))
  · rw [hres]
    have hget : kvGet
        (⟨st.users, (kvDel st (verifKey (normEmail e))).kv,
          st.mailAttempts⟩ : St) (verifKey (normEmail e)) = none :=
      kvGet_del_self st (verifKey (normEmail e))
    obtain ⟨g2, d2, s2, c2⟩ := f2
    cases g2 <;>
      simp [registerVerify, jtruthy_str, bne_iff_ne, he, hcne, hcne', hv, hc,
        hget, okResp, errR]

/-- Witness for C9 at concrete inputs. -/
theorem verify_commit_failure_orphans_code_w :
    isValidEmail (normEmail "c@d.com") = true ∧
    isSixDigits (jsTrim "123456") = true ∧
    kvGet ⟨[uUnverified], [⟨verifKey "c@d.com", "123456", 600⟩], []⟩
        (verifKey (normEmail "c@d.com")) = some (jsTrim "123456") ∧
    findUserByEmail ⟨[uUnverified], [⟨verifKey "c@d.com", "123456", 600⟩], []⟩
        (normEmail "c@d.com") = some uUnverified ∧
    uUnverified.verified = false ∧
    ((registerVerify ⟨false, false, false, true⟩
          ⟨[uUnverified], [⟨verifKey "c@d.com", "123456", 600⟩], []⟩
          (.str "c@d.com") (.str "123456")).2 =
        errR 500 "internal server error" ∧
      (registerVerify ⟨false, false, false, true⟩
          ⟨[uUnverified], [⟨verifKey "c@d.com", "123456", 600⟩], []⟩
          (.str "c@d.com") (.str "123456")).1.users = [uUnverified] ∧
      kvGet (registerVerify ⟨false, false, false, true⟩
            ⟨[uUnverified], [⟨verifKey "c@d.com", "123456", 600⟩], []⟩
            (.str "c@d.com") (.str "123456")).1
          (verifKey (normEmail "c@d.com")) = none ∧
      (registerVerify ⟨false, false, false, false⟩
          (registerVerify ⟨false, false, false, true⟩
            ⟨[uUnverified], [⟨verifKey "c@d.com", "123456", 600⟩], []⟩
            (.str "c@d.com") (.str "123456")).1
          (.str "c@d.com") (.str "123456")).2 ≠ okResp) :=
  ⟨by decide, by decide, by decide, by decide, by decide,
    verify_commit_failure_orphans_code
      ⟨[uUnverified], [⟨verifKey "c@d.com", "123456", 600⟩], []⟩
      "c@d.com" "123456" uUnverified ⟨false, false, false, false⟩
      (by decide) (by decide) (by decide) (by decide) (by decide)⟩

/-- Claim C8: for every random draw in `[0,1)`, `genCode` with length 6
yields the decimal string of an integer in `[100000, 999999]` — exactly
six digit characters, never a leading-zero-suppressed shorter string —
and each value `k` is produced exactly for an `r`-subinterval of length
`1/900000` (uniformity). -/
theorem genCode_uniform_six_digits (r : ℚ) (h0 : 0 ≤ r) (h1 : r < 1) :
    100000 ≤ genCodeN 6 r ∧ genCodeN 6 r ≤ 999999 ∧
    (genCode 6 r).length = 6 ∧
    (genCode 6 r).toList.all Char.isDigit = true ∧
    (∀ k : ℤ, genCodeN 6 r = k ↔
      ((k : ℚ) - 100000) / 900000 ≤ r ∧ r < ((k : ℚ) - 99999) / 900000) := by
  have hform : genCodeN 6 r = ⌊(100000 : ℚ) + r * 900000⌋ := by
    norm_num [genCodeN]
  have hlo : (100000 : ℤ) ≤ genCodeN 6 r := by
    rw [hform]
    apply Int.le_floor.mpr
    push_cast
    nlinarith
  have hup : genCodeN 6 r ≤ 999999 := by
    have : genCodeN 6 r < 1000000 := by
      rw [hform]
      apply Int.floor_lt.mpr
      push_cast
      nlinarith
    omega
  obtain ⟨n, hn⟩ : ∃ n : ℕ, genCodeN 6 r = (n : ℤ) :=
    ⟨(genCodeN 6 r).toNat, (Int.toNat_of_nonneg (by omega)).symm⟩
  have hnlo : 100000 ≤ n := by omega
  have hnup : n < 1000000 := by omega
  have hn0 : n ≠ 0 := by omega
  have hcode : genCode 6 r = natDec n := by rw [genCode, hn]; rfl
  have hlog : Nat.log 10 n = 5 :=
    Nat.log_eq_of_pow_le_of_lt_pow (by norm_num; omega) (by norm_num; omega)
  have hlen : (Nat.digits 10 n).length = 6 := by
    rw [Nat.digits_len 10 n (by norm_num) hn0, hlog]
  refine ⟨hlo, hup, ?_, ?_, ?_⟩
  · rw [hcode, natDec, if_neg hn0]
    show (((Nat.digits 10 n).map Nat.digitChar).reverse).length = 6
    simp [hlen]
  · rw [hcode, natDec, if_neg hn0]
    show (((Nat.digits 10 n).map Nat.digitChar).reverse).all Char.isDigit
      = true
    simp only [List.all_eq_true, List.mem_reverse, List.mem_map]
    rintro c ⟨d, hd, rfl⟩
    have hdlt : d < 10 := Nat.digits_lt_base (by norm_num) hd
    interval_cases d <;> decide
  · intro k
    rw [hform, Int.floor_eq_iff,
      div_le_iff₀ (by norm_num : (0 : ℚ) < 900000),
      lt_div_iff₀ (by norm_num : (0 : ℚ) < 900000)]
    constructor
    · rintro ⟨a, b⟩
      exact ⟨by linarith, by linarith⟩
    · rintro ⟨a, b⟩
      exact ⟨by linarith, by linarith⟩

/-- Witness for C8 at the concrete draw `r = 0` (the generator's minimum,
which must still be the full-width 100000, not a shorter string). -/
theorem genCode_uniform_six_digits_w :
    (0 : ℚ) ≤ 0 ∧ (0 : ℚ) < 1 ∧
    (100000 ≤ genCodeN 6 0 ∧ genCodeN 6 0 ≤ 999999 ∧
      (genCode 6 0).length = 6 ∧
      (genCode 6 0).toList.all Char.isDigit = true ∧
      (∀ k : ℤ, genCodeN 6 0 = k ↔
        ((k : ℚ) - 100000) / 900000 ≤ 0 ∧
          (0 : ℚ) < ((k : ℚ) - 99999) / 900000)) :=
  ⟨by norm_num, by norm_num,
    genCode_uniform_six_digits 0 (by norm_num) (by norm_num)⟩

/-- Claim C2: when register-request passes validation and the
duplicate-email check but the verification-code store write fails, the
transaction is rolled back — the state is exactly the initial one — and
the response is a 500; and under every fault combination, a user row for
the new email exists afterwards only together with its stored code. -/
theorem register_request_rollback
    (cfg : Config) (r : ℚ) (newId : Nat) (st : St) (e p : String)
    (hv : isValidEmail (normEmail e) = true)
    (hp : jvalidPassword (.str p) = true)
    (hnone : findUserByEmail st (normEmail e) = none) :
    (∀ cF mF : Bool,
      registerRequest cfg r newId ⟨true, cF, mF⟩ st (.str e) (.str p) =
        (st, errR 500 "Failed to store verification code")) ∧
    (∀ f : RegisterFaults,
      findUserByEmail (registerRequest cfg r newId f st (.str e) (.str p)).1
          (normEmail e) ≠ none →
      kvGet (registerRequest cfg r newId f st (.str e) (.str p)).1
          (verifKey (normEmail e)) = some (genCode 6 r)) := by
  have he := valid_email_ne_empty hv
  have hpne := valid_password_ne_empty hp
  constructor
  · intro cF mF
    simp [registerRequest, jtruthy_str, bne_iff_ne, he, hpne, hv, hp, hnone]
  · rintro ⟨sF, cF, mF⟩ hfound
    cases sF with
    | true =>
      exfalso
      apply hfound
      simp [registerRequest, jtruthy_str, bne_iff_ne, he, hpne, hv, hp,
        hnone]
    | false =>
      cases cF with
      | true =>
        exfalso
        apply hfound
        simp only [registerRequest, jtruthy_str, bne_iff_ne, he, hpne, hv,
          hp, hnone]
        simpa [jtruthy_str, bne_iff_ne, he, hpne, findUserByEmail, kvSetEx]
          using hnone
      | false =>
        simp [registerRequest, jtruthy_str, bne_iff_ne, he, hpne, hv, hp,
          hnone, kvGet, kvSetEx, List.find?]

/-- Witness for C2 at concrete inputs (empty initial state, failing
code-store write). -/
theorem register_request_rollback_w :
    isValidEmail (normEmail "x@y.com") = true ∧
    jvalidPassword (.str "secret1") = true ∧
    findUserByEmail ⟨[], [], []⟩ (normEmail "x@y.com") = none ∧
    ((∀ cF mF : Bool,
        registerRequest cfgW 0 1 ⟨true, cF, mF⟩ ⟨[], [], []⟩
            (.str "x@y.com") (.str "secret1") =
          (⟨[], [], []⟩, errR 500 "Failed to store verification code")) ∧
      (∀ f : RegisterFaults,
        findUserByEmail
            (registerRequest cfgW 0 1 f ⟨[], [], []⟩
                (.str "x@y.com") (.str "secret1")).1 (normEmail "x@y.com") ≠
            none →
        kvGet (registerRequest cfgW 0 1 f ⟨[], [], []⟩
              (.str "x@y.com") (.str "secret1")).1
            (verifKey (normEmail "x@y.com")) = some (genCode 6 0))) :=
  ⟨by decide, by decide, by decide,
    register_request_rollback cfgW 0 1 ⟨[], [], []⟩ "x@y.com" "secret1"
      (by decide) (by decide) (by decide)⟩

/-- Claim C10: a register-verify or reset-password request whose code
field is truthy but not a string throws on `code.trim()`, producing a 500
"internal server error" (not a 400), with no state change. -/
theorem nonstring_code_500
    (f : VerifyFaults) (f2 : ResetFaults) (st st2 : St)
    (e e2 np : String) (code code2 : JVal)
    (hv : isValidEmail (normEmail e) = true)
    (hv2 : isValidEmail (normEmail e2) = true)
    (hct : jtruthy code = true) (hcs : ∀ s, code ≠ .str s)
    (hct2 : jtruthy code2 = true) (hcs2 : ∀ s, code2 ≠ .str s)
    (hnp : jvalidPassword (.str np) = true) :
    registerVerify f st (.str e) code =
      (st, errR 500 "internal server error") ∧
    resetPassword f2 st2 (.str e2) code2 (.str np) =
      (st2, errR 500 "internal server error") := by
  have he := valid_email_ne_empty hv
  have he2 := valid_email_ne_empty hv2
  have hnpne := valid_password_ne_empty hnp
  constructor
  · cases code with
    | str s => exact absurd rfl (hcs s)
    | jnull => exact absurd hct (by decide)
    | num n => simp [registerVerify, jtruthy_str, bne_iff_ne, he, hv, hct]
    | jbool b => simp [registerVerify, jtruthy_str, bne_iff_ne, he, hv, hct]
  · cases code2 with
    | str s => exact absurd rfl (hcs2 s)
    | jnull => exact absurd hct2 (by decide)
    | num n =>
      simp [resetPassword, jtruthy_str, bne_iff_ne, he2, hnpne, hv2, hnp,
        hct2]
    | jbool b =>
      simp [resetPassword, jtruthy_str, bne_iff_ne, he2, hnpne, hv2, hnp,
        hct2]

/-- Witness for C10: a JSON number 123456 in the code field yields a 500
on both endpoints. -/
theorem nonstring_code_500_w :
    isValidEmail (normEmail "x@y.com") = true ∧
    jtruthy (.num 123456) = true ∧
    jvalidPassword (.str "secret2") = true ∧
    (registerVerify ⟨false, false, false, false⟩ ⟨[], [], []⟩
        (.str "x@y.com") (.num 123456) =
        (⟨[], [], []⟩, errR 500 "internal server error") ∧
      resetPassword ⟨false, false, false, false⟩ ⟨[], [], []⟩
          (.str "x@y.com") (.num 123456) (.str "secret2") =
        (⟨[], [], []⟩, errR 500 "internal server error")) :=
  ⟨by decide, by decide, by decide,
    nonstring_code_500 ⟨false, false, false, false⟩
      ⟨false, false, false, false⟩ ⟨[], [], []⟩ ⟨[], [], []⟩
      "x@y.com" "x@y.com" "secret2" (.num 123456) (.num 123456)
      (by decide) (by decide) (by decide)
      (fun s h => by cases h) (by decide) (fun s h => by cases h)
      (by decide)⟩

/-- Claim C7: for a valid-format email, forgot-password answers with the
same 200 success body whether or not a user exists, and when no user
exists the state is untouched: no reset code is stored and no mail send
is attempted (the mail-attempt log is part of the state). -/
theorem forgot_password_uniform
    (cfg : Config) (r : ℚ) (f : ForgotFaults) (st : St) (e : String)
    (hv : isValidEmail (normEmail e) = true) :
    (forgotPassword cfg r f st (.str e)).2 =
      ⟨200, .okMsg "reset code sent if email exists"⟩ ∧
    (findUserByEmail st (normEmail e) = none →
      (forgotPassword cfg r f st (.str e)).1 = st) := by
  have he := valid_email_ne_empty hv
  constructor
  · cases hfind : findUserByEmail st (normEmail e) <;>
      simp [forgotPassword, jtruthy_str, bne_iff_ne, he, hv, hfind]
  · intro hnone
    simp [forgotPassword, jtruthy_str, bne_iff_ne, he, hv, hnone]

/-- Witness for C7 at concrete inputs (empty user table). -/
theorem forgot_password_uniform_w :
    isValidEmail (normEmail "x@y.com") = true ∧
    findUserByEmail ⟨[], [], []⟩ (normEmail "x@y.com") = none ∧
    ((forgotPassword cfgW 0 ⟨false, false⟩ ⟨[], [], []⟩ (.str "x@y.com")).2 =
        ⟨200, .okMsg "reset code sent if email exists"⟩ ∧
      (findUserByEmail ⟨[], [], []⟩ (normEmail "x@y.com") = none →
        (forgotPassword cfgW 0 ⟨false, false⟩ ⟨[], [], []⟩
            (.str "x@y.com")).1 = ⟨[], [], []⟩)) :=
  ⟨by decide, by decide,
    forgot_password_uniform cfgW 0 ⟨false, false⟩ ⟨[], [], []⟩ "x@y.com"
      (by decide)⟩

/-- Claim C5: logout with a valid-signature token carrying a jti decodes
ignoring expiry, writes the revocation marker `black_{jti}` with TTL
`exp − now` when positive and the configured default otherwise, and
reports success even when the marker write fails. -/
theorem logout_blacklists
    (cfg : Config) (now : Int) (setFails : Bool) (st : St) (t : Tok)
    (j : String)
    (hs : t.validSig = true) (hj : t.jti = some j) (hne : j ≠ "")
    (hnow : 0 ≤ now) :
    (logout cfg now setFails st (.tok t)).2 = okResp ∧
    (setFails = true → (logout cfg now setFails st (.tok t)).1 = st) ∧
    (setFails = false →
      (logout cfg now setFails st (.tok t)).1 =
        kvSetEx st (blackKey j)
          (match t.exp with
            | some e => if 0 < e - now then e - now else cfg.tokenTtlSeconds
            | none => cfg.tokenTtlSeconds) "1") := by
  refine ⟨?_, ?_, ?_⟩
  · simp [logout, hs, hj, jtiTruthy, bne_iff_ne, hne]
  · intro hsf
    simp [logout, hs, hj, jtiTruthy, bne_iff_ne, hne, hsf]
  · intro hsf
    cases hexp : t.exp with
    | none => simp [logout, hs, hj, jtiTruthy, bne_iff_ne, hne, hsf, hexp]
    | some e =>
      by_cases he0 : e = 0
      · have hpos : ¬ 0 < e - now := by omega
        have hpos' : ¬ now < 0 := by omega
        simp [logout, hs, hj, jtiTruthy, bne_iff_ne, hne, hsf, hexp, he0,
          hpos, hpos']
      · by_cases hrem : 0 < e - now <;>
          simp [logout, hs, hj, jtiTruthy, bne_iff_ne, hne, hsf, hexp, he0,
            hrem, Int.lt_iff_add_one_le]

/-- Witness for C5: an expired token (exp in the past) is still
blacklisted, with the default TTL, and the store write failing still
yields `{ok:true}`. -/
theorem logout_blacklists_w :
    (⟨7, "a@b.com", some "X", some 50, true⟩ : Tok).validSig = true ∧
    (⟨7, "a@b.com", some "X", some 50, true⟩ : Tok).jti = some "X" ∧
    ("X" : String) ≠ "" ∧ (0 : Int) ≤ 100 ∧
    ((logout cfgW 100 false ⟨[], [], []⟩
          (.tok ⟨7, "a@b.com", some "X", some 50, true⟩)).2 = okResp ∧
      (false = true →
        (logout cfgW 100 false ⟨[], [], []⟩
            (.tok ⟨7, "a@b.com", some "X", some 50, true⟩)).1 =
          ⟨[], [], []⟩) ∧
      (false = false →
        (logout cfgW 100 false ⟨[], [], []⟩
            (.tok ⟨7, "a@b.com", some "X", some 50, true⟩)).1 =
          kvSetEx ⟨[], [], []⟩ (blackKey "X")
            (match (⟨7, "a@b.com", some "X", some 50, true⟩ : Tok).exp with
              | some e => if 0 < e - 100 then e - 100 else cfgW.tokenTtlSeconds
              | none => cfgW.tokenTtlSeconds) "1")) :=
  ⟨by decide, by decide, by decide, by decide,
    logout_blacklists cfgW 100 false ⟨[], [], []⟩
      ⟨7, "a@b.com", some "X", some 50, true⟩ "X"
      (by decide) (by decide) (by decide) (by decide)⟩

/-- Claim C6: for a guard check of a valid-signature, unexpired token
carrying a jti, a failing revocation-store lookup fails open (the claims
are attached), while a successful lookup finding the marker rejects with
401 "Token revoked". -/
theorem auth_guard_revocation
    (now : Int) (st : St) (t : Tok) (j : String)
    (hs : t.validSig = true) (hexp : tokExpired now t = false)
    (hj : t.jti = some j) (hne : j ≠ "") :
    authGuard now true st (.tok t) = .ok t ∧
    (kvGet st (blackKey j) = some "1" →
      authGuard now false st (.tok t) = .error (errR 401 "Token revoked")) := by
  constructor
  · simp [authGuard, hs, hexp, hj, jtiTruthy, bne_iff_ne, hne]
  · intro hblack
    simp [authGuard, hs, hexp, hj, jtiTruthy, bne_iff_ne, hne, hblack]

/-- Witness for C6 at concrete inputs: a blacklisted jti is rejected, and
the same token passes when the lookup faults. -/
theorem auth_guard_revocation_w :
    (⟨7, "a@b.com", some "X", some 200, true⟩ : Tok).validSig = true ∧
    tokExpired 100 ⟨7, "a@b.com", some "X", some 200, true⟩ = false ∧
    (⟨7, "a@b.com", some "X", some 200, true⟩ : Tok).jti = some "X" ∧
    ("X" : String) ≠ "" ∧
    (authGuard 100 true ⟨[], [⟨blackKey "X", "1", 86400⟩], []⟩
        (.tok ⟨7, "a@b.com", some "X", some 200, true⟩) =
          .ok ⟨7, "a@b.com", some "X", some 200, true⟩ ∧
      (kvGet ⟨[], [⟨blackKey "X", "1", 86400⟩], []⟩ (blackKey "X") =
          some "1" →
        authGuard 100 false ⟨[], [⟨blackKey "X", "1", 86400⟩], []⟩
            (.tok ⟨7, "a@b.com", some "X", some 200, true⟩) =
          .error (errR 401 "Token revoked"))) :=
  ⟨by decide, by decide, by decide, by decide,
    auth_guard_revocation 100 ⟨[], [⟨blackKey "X", "1", 86400⟩], []⟩
      ⟨7, "a@b.com", some "X", some 200, true⟩ "X"
      (by decide) (by decide) (by decide) (by decide)⟩

/-- Witness for C4 at concrete inputs: even the correct password is
rejected with 403 while the user is unverified. -/
theorem login_unverified_rejected_w :
    isValidEmail (normEmail "c@d.com") = true ∧
    jtruthy (.str "secret1") = true ∧
    findUserByEmail ⟨[uUnverified], [], []⟩ (normEmail "c@d.com") =
      some uUnverified ∧
    uUnverified.verified = false ∧
    login "J" ⟨[uUnverified], [], []⟩ (.str "c@d.com") (.str "secret1") =
      (⟨[uUnverified], [], []⟩, errR 403 "email not verified") :=
  ⟨by decide, by decide, by decide, by decide,
    login_unverified_rejected "J" ⟨[uUnverified], [], []⟩ "c@d.com"
      (.str "secret1") uUnverified (by decide) (by decide) (by decide)
      (by decide)⟩

end Auth
